import Mathlib

/-!
Shallow embedding of the icp-recipe canister (src/src/index.ts) and proofs of
its specification claims.

The source file contains two revisions of the canister concatenated:
revision A (lines 1-268) and revision B (lines 270-537).  They share the data
model and the UUID validator; they differ in `createRecipe` (A generates the
`ownerId`, B takes the caller-supplied `requesterId`), `getRecipeById` (B adds
an ownership check), `updateRecipe` (A validates both ids, B only the recipe
id) and `deleteRecipe` (A removes the record before the ownership check, B
checks ownership first).

Modelling choices:
- The `StableBTreeMap<string, Recipe>` is modelled as an association list with
  first-match lookup and in-place replacement on insert; the claims settled
  here only depend on key-value contents, never on iteration order.
- `uuidv4()` is nondeterministic; functions that call it take the generated
  string as an explicit argument (`freshRecipeId`, `freshOwnerId`).
- JavaScript `s.toLowerCase()` is the runtime's Unicode-aware case mapping;
  like `uuidv4`, it is an external primitive, so the query operations that
  call it take it as an explicit function argument `lower`, and the theorems
  about them hold for every such function — in particular for the actual
  Unicode mapping.  `asciiToLower` is its ASCII fragment (on ASCII strings
  character-wise `Char.toLower` agrees with the JS function) and is used only
  to instantiate concrete examples.
- JavaScript `payload.f || recipe.f` on strings (the only falsy string is
  `""`) is modelled by `strOr`.
- `Result.Ok`/`Result.Err` with string messages is modelled by
  `Except String`, keeping the exact message strings of the source.
- The `try`/`catch` wrappers never fire in the pure model (no operation in the
  model throws), so the generic-failure branches are absent.
-/

set_option autoImplicit false

/-- The persisted `Recipe` record, fields in source order (index.ts lines
4-12). -/
structure Recipe where
  id : String
  recipeName : String
  ownerName : String
  ownerId : String
  description : String
  recipeType : String
  videoDemonstration : String
deriving DecidableEq, Repr

/-- The `RecipePayload` record (index.ts lines 14-20). -/
structure RecipePayload where
  recipeName : String
  recipeType : String
  description : String
  ownerName : String
  videoDemonstration : String
deriving DecidableEq, Repr

/-- Model of `recipeStorage : StableBTreeMap<string, Recipe>` as an
association list from recipe id to record. -/
abbrev Store := List (String × Recipe)

namespace Store

/-- `recipeStorage.get(k)`: first binding of key `k`, if any. -/
def get (s : Store) (k : String) : Option Recipe :=
  match s with
  | [] => none
  | (k', v) :: rest => if k' = k then some v else get rest k

/-- `recipeStorage.insert(k, v)`: replace the binding of `k` in place, or
append a fresh binding. -/
def insert (s : Store) (k : String) (v : Recipe) : Store :=
  match s with
  | [] => [(k, v)]
  | (k', v') :: rest =>
      if k' = k then (k, v) :: rest else (k', v') :: insert rest k v

/-- The state change of `recipeStorage.remove(k)`: drop the binding of `k`. -/
def remove (s : Store) (k : String) : Store :=
  match s with
  | [] => []
  | (k', v') :: rest => if k' = k then rest else (k', v') :: remove rest k

/-- `recipeStorage.values()`: the stored records.  (The real map returns them
in key order; no claim settled here depends on the order.) -/
def values (s : Store) : List Recipe := s.map Prod.snd

end Store

/-- A hexadecimal digit, as matched by the character classes `[\da-f]` (with
the `i` flag) and `[a-fA-F0-9]` of the two UUID regexes. -/
def isHexDigit (c : Char) : Bool :=
  (decide ('0' ≤ c) && decide (c ≤ '9')) ||
  (decide ('a' ≤ c) && decide (c ≤ 'f')) ||
  (decide ('A' ≤ c) && decide (c ≤ 'F'))

/-- Consume exactly `n` hexadecimal digits (the `{n}` repetition of a hex
character class). -/
def takeHex : Nat → List Char → Option (List Char)
  | 0, cs => some cs
  | _ + 1, [] => none
  | n + 1, c :: cs => if isHexDigit c then takeHex n cs else none

/-- Consume one literal dash. -/
def takeDash : List Char → Option (List Char)
  | [] => none
  | c :: cs => if c = '-' then some cs else none

/--
`isValidUUID` (index.ts lines 265-268 and 534-537).  Revision A tests
`/^[\da-f]{8}-([\da-f]{4}-){3}[\da-f]{12}$/i` and revision B tests
`/^[a-fA-F0-9]{8}-[a-fA-F0-9]{4}-[a-fA-F0-9]{4}-[a-fA-F0-9]{4}-[a-fA-F0-9]{12}$/i`;
both denote the same language: eight hex digits, dash, three dash-separated
groups of four hex digits, dash, twelve hex digits, case-insensitive,
anchored at both ends.
-/
def isValidUUID (id : String) : Bool :=
  match (((((((( takeHex 8 id.data).bind takeDash).bind
      (takeHex 4)).bind takeDash).bind
      (takeHex 4)).bind takeDash).bind
      (takeHex 4)).bind takeDash).bind (takeHex 12) with
  | some [] => true
  | _ => false

/-- JavaScript `a || b` on strings: `""` is the only falsy string. -/
def strOr (a b : String) : String := if a = "" then b else a

/-- The ASCII fragment of JavaScript `String.prototype.toLowerCase`:
character-wise `Char.toLower` lowercases exactly the letters A-Z, which
agrees with the JS function on ASCII strings.  The query operations take the
runtime's full Unicode `toLowerCase` as a function parameter `lower`; this
definition only instantiates concrete ASCII examples. -/
def asciiToLower (s : String) : String := ⟨s.data.map Char.toLower⟩

/-- The `updatedRecipe` record built by `updateRecipe`, identical in both
revisions (index.ts lines 201-209 and 481-489): each payload field overwrites
the stored one through JavaScript `||`; `id` and `ownerId` are taken from the
stored record. -/
def applyPayload (payload : RecipePayload) (recipe : Recipe) : Recipe :=
  { id := recipe.id
    recipeName := strOr payload.recipeName recipe.recipeName
    recipeType := strOr payload.recipeType recipe.recipeType
    description := strOr payload.description recipe.description
    ownerName := strOr payload.ownerName recipe.ownerName
    ownerId := recipe.ownerId
    videoDemonstration := strOr payload.videoDemonstration recipe.videoDemonstration }

/-- The `newRecipe` record built by revision A's `createRecipe` (index.ts
lines 160-168): both the recipe id and the owner id come from `uuidv4()`. -/
def newRecipeA (freshRecipeId freshOwnerId : String)
    (payload : RecipePayload) : Recipe :=
  { id := freshRecipeId
    recipeName := payload.recipeName
    recipeType := payload.recipeType
    description := payload.description
    ownerName := payload.ownerName
    ownerId := freshOwnerId
    videoDemonstration := payload.videoDemonstration }

/-- The `newRecipe` record built by revision B's `createRecipe` (index.ts
lines 437-445): the caller-supplied `requesterId` becomes the owner id. -/
def newRecipeB (freshRecipeId requesterId : String)
    (payload : RecipePayload) : Recipe :=
  { id := freshRecipeId
    recipeName := payload.recipeName
    recipeType := payload.recipeType
    description := payload.description
    ownerName := payload.ownerName
    ownerId := requesterId
    videoDemonstration := payload.videoDemonstration }

instance {ε α : Type} [DecidableEq ε] [DecidableEq α] :
    DecidableEq (Except ε α) := by
  intro x y
  cases x <;> cases y
  case error.error a b => exact decidable_of_iff (a = b) (by simp)
  case ok.ok a b => exact decidable_of_iff (a = b) (by simp)
  all_goals exact isFalse (by intro h; cases h)

/- Revision A of the canister (index.ts lines 1-268). -/
namespace RevA

/-- `getAllRecipes` (lines 29-39). -/
def getAllRecipes (store : Store) : Except String (List Recipe) :=
  if (Store.values store).length = 0 then
    .error "There are no recipes at this moment."
  else
    .ok (Store.values store)

/-- `getRecipeById` (lines 47-57). -/
def getRecipeById (store : Store) (recipeId : String) : Except String Recipe :=
  if !isValidUUID recipeId then
    .error "Invalid recipe ID"
  else
    match Store.get store recipeId with
    | some recipe => .ok recipe
    | none =>
        .error ("Recipe with the provided id: " ++ recipeId ++ " has not been found!")

/-- `getRecipeByName` (lines 65-77).  `lower` stands for the runtime's
`toLowerCase`. -/
def getRecipeByName (lower : String → String) (store : Store)
    (recipeName : String) : Except String (List Recipe) :=
  let result := (Store.values store).filter
    (fun recipe => lower recipe.recipeName = lower recipeName)
  if result.length = 0 then
    .error "There are no recipes with such a name at this moment."
  else
    .ok result

/-- `getRecipesByType` (lines 130-142).  `lower` stands for the runtime's
`toLowerCase`. -/
def getRecipesByType (lower : String → String) (store : Store)
    (recipeType : String) : Except String (List Recipe) :=
  let result := (Store.values store).filter
    (fun recipe => lower recipe.recipeType = lower recipeType)
  if result.length = 0 then
    .error "There are no recipes available from this type."
  else
    .ok result

/-- `createRecipe` (lines 150-177).  `freshRecipeId` and `freshOwnerId` stand
for the two `uuidv4()` calls. -/
def createRecipe (store : Store) (freshRecipeId freshOwnerId : String)
    (payload : RecipePayload) : Except String Recipe × Store :=
  if payload.recipeType = "" || payload.description = "" ||
     payload.ownerName = "" || payload.videoDemonstration = "" ||
     payload.recipeName = "" then
    (.error "Incomplete input data!", store)
  else
    let newRecipe : Recipe := newRecipeA freshRecipeId freshOwnerId payload
    (.ok newRecipe, Store.insert store newRecipe.id newRecipe)

/-- `updateRecipe` (lines 187-218). -/
def updateRecipe (store : Store) (recipeId ownerId : String)
    (payload : RecipePayload) : Except String Recipe × Store :=
  if !isValidUUID recipeId || !isValidUUID ownerId then
    (.error "Invalid recipe or owner ID for updating the recipe.", store)
  else
    match Store.get store recipeId with
    | some recipe =>
        if recipe.ownerId ≠ ownerId then
          (.error "Only the owner of the recipe can update this recipe!", store)
        else
          let updatedRecipe : Recipe := applyPayload payload recipe
          (.ok updatedRecipe, Store.insert store recipe.id updatedRecipe)
    | none =>
        (.error ("Failed to update recipe with id: " ++ recipeId ++ "!"), store)

/-- `deleteRecipe` (lines 227-244).  The source calls
`recipeStorage.remove(recipeId)` and only then checks ownership, so on an
ownership failure the record has already been removed. -/
def deleteRecipe (store : Store) (recipeId ownerId : String) :
    Except String Recipe × Store :=
  if !isValidUUID recipeId || !isValidUUID ownerId then
    (.error "Invalid recipe or owner ID for deleting an Recipe.", store)
  else
    match Store.get store recipeId with
    | some recipe =>
        let removed := Store.remove store recipeId
        if recipe.ownerId ≠ ownerId then
          (.error "Only the owner can delete the recipe!", removed)
        else
          (.ok recipe, removed)
    | none =>
        (.error ("Failed to delete recipe with id: " ++ recipeId), store)

end RevA

/- Revision B of the canister (index.ts lines 270-537). -/
namespace RevB

/-- `getAllRecipes` (lines 298-310). -/
def getAllRecipes (store : Store) : Except String (List Recipe) :=
  let recipes := Store.values store
  if recipes.length = 0 then
    .error "There are no recipes at this moment."
  else
    .ok recipes

/-- `getRecipeById` (lines 319-333): revision B also requires the requester
to be the owner. -/
def getRecipeById (store : Store) (recipeId requesterId : String) :
    Except String Recipe :=
  if !isValidUUID recipeId then
    .error "Invalid recipe ID"
  else
    match Store.get store recipeId with
    | some recipe =>
        if recipe.ownerId ≠ requesterId then
          .error "Unauthorized to access this recipe."
        else
          .ok recipe
    | none =>
        .error ("Recipe with the provided id: " ++ recipeId ++ " has not been found!")

/-- `getRecipeByName` (lines 341-353).  `lower` stands for the runtime's
`toLowerCase`. -/
def getRecipeByName (lower : String → String) (store : Store)
    (recipeName : String) : Except String (List Recipe) :=
  let result := (Store.values store).filter
    (fun recipe => lower recipe.recipeName = lower recipeName)
  if result.length = 0 then
    .error ("There are no recipes with the name " ++ recipeName ++ " at this moment.")
  else
    .ok result

/-- `getRecipesByType` (lines 407-419).  `lower` stands for the runtime's
`toLowerCase`. -/
def getRecipesByType (lower : String → String) (store : Store)
    (recipeType : String) : Except String (List Recipe) :=
  let result := (Store.values store).filter
    (fun recipe => lower recipe.recipeType = lower recipeType)
  if result.length = 0 then
    .error ("There are no recipes available from type " ++ recipeType ++ ".")
  else
    .ok result

/-- `createRecipe` (lines 427-457): the caller-supplied `requesterId` becomes
the `ownerId`; `freshRecipeId` stands for the `uuidv4()` call. -/
def createRecipe (store : Store) (requesterId : String) (freshRecipeId : String)
    (payload : RecipePayload) : Except String Recipe × Store :=
  if payload.recipeType = "" || payload.description = "" ||
     payload.ownerName = "" || payload.videoDemonstration = "" ||
     payload.recipeName = "" then
    (.error "Incomplete input data!", store)
  else
    let newRecipe : Recipe := newRecipeB freshRecipeId requesterId payload
    (.ok newRecipe, Store.insert store newRecipe.id newRecipe)

/-- `updateRecipe` (lines 467-498): revision B validates only the recipe id. -/
def updateRecipe (store : Store) (recipeId requesterId : String)
    (payload : RecipePayload) : Except String Recipe × Store :=
  if !isValidUUID recipeId then
    (.error "Invalid recipe ID for updating the recipe.", store)
  else
    match Store.get store recipeId with
    | some recipe =>
        if recipe.ownerId ≠ requesterId then
          (.error "Only the owner of the recipe can update this recipe!", store)
        else
          let updatedRecipe : Recipe := applyPayload payload recipe
          (.ok updatedRecipe, Store.insert store recipe.id updatedRecipe)
    | none =>
        (.error ("Failed to update recipe with id: " ++ recipeId ++ "!"), store)

/-- `deleteRecipe` (lines 507-527): revision B looks up first, checks
ownership, and removes only on success. -/
def deleteRecipe (store : Store) (recipeId requesterId : String) :
    Except String Recipe × Store :=
  if !isValidUUID recipeId then
    (.error "Invalid recipe ID for deleting a recipe.", store)
  else
    match Store.get store recipeId with
    | some recipe =>
        if recipe.ownerId ≠ requesterId then
          (.error "Only the owner can delete the recipe!", store)
        else
          (.ok recipe, Store.remove store recipeId)
    | none =>
        (.error ("Failed to delete recipe with id: " ++ recipeId), store)

end RevB

/-! ### Lemmas about the store model -/

namespace Store

theorem get_insert_self (s : Store) (k : String) (v : Recipe) :
    get (insert s k v) k = some v := by
  induction s with
  | nil => simp [insert, get]
  | cons p rest ih =>
      obtain ⟨a, b⟩ := p
      by_cases h : a = k
      · subst h; simp [insert, get]
      · simp [insert, get, h, ih]

theorem get_insert_ne (s : Store) (k q : String) (v : Recipe) (h : k ≠ q) :
    get (insert s k v) q = get s q := by
  induction s with
  | nil => simp [insert, get, h]
  | cons p rest ih =>
      obtain ⟨a, b⟩ := p
      by_cases ha : a = k
      · subst ha; simp [insert, get, h]
      · by_cases hq : a = q
        · subst hq
          simp [insert, get, ha]
        · simp [insert, get, ha, hq, ih]

theorem insert_insert_self (s : Store) (k : String) (v : Recipe) :
    insert (insert s k v) k v = insert s k v := by
  induction s with
  | nil => simp [insert]
  | cons p rest ih =>
      obtain ⟨a, b⟩ := p
      by_cases ha : a = k
      · subst ha; simp [insert]
      · simp [insert, ha, ih]

theorem insert_get_self (s : Store) (k : String) (v : Recipe)
    (h : get s k = some v) : insert s k v = s := by
  induction s with
  | nil => simp [get] at h
  | cons p rest ih =>
      obtain ⟨a, b⟩ := p
      by_cases ha : a = k
      · subst ha
        simp [get] at h
        simp [insert, h]
      · simp [get, ha] at h
        simp [insert, ha, ih h]

theorem mem_values_iff (s : Store) (r : Recipe) :
    r ∈ values s ↔ ∃ k, (k, r) ∈ s := by
  constructor
  · intro h
    simp only [values, List.mem_map] at h
    obtain ⟨⟨k, v⟩, hm, hv⟩ := h
    subst hv
    exact ⟨k, hm⟩
  · rintro ⟨k, hm⟩
    exact List.mem_map.mpr ⟨(k, r), hm, rfl⟩

end Store

/-! ### Lemmas about the JavaScript string-or and payload application -/

theorem strOr_or_self (a b : String) : strOr a (strOr a b) = strOr a b := by
  unfold strOr
  by_cases h : a = "" <;> simp [h]

theorem applyPayload_id (p : RecipePayload) (r : Recipe) :
    (applyPayload p r).id = r.id := rfl

theorem applyPayload_ownerId (p : RecipePayload) (r : Recipe) :
    (applyPayload p r).ownerId = r.ownerId := rfl

theorem applyPayload_idem (p : RecipePayload) (r : Recipe) :
    applyPayload p (applyPayload p r) = applyPayload p r := by
  simp [applyPayload, strOr_or_self]

theorem applyPayload_empty (r : Recipe) :
    applyPayload { recipeName := "", recipeType := "", description := "",
                   ownerName := "", videoDemonstration := "" } r = r := by
  cases r
  simp [applyPayload, strOr]

/-! ### Characterisation of the UUID matcher -/

theorem takeHex_eq_some (n : Nat) :
    ∀ cs rest : List Char, takeHex n cs = some rest ↔
      ∃ pre, cs = pre ++ rest ∧ pre.length = n ∧ pre.all isHexDigit := by
  induction n with
  | zero =>
      intro cs rest
      simp only [takeHex, Option.some.injEq]
      constructor
      · rintro rfl
        exact ⟨[], rfl, rfl, rfl⟩
      · rintro ⟨pre, hcs, hlen, -⟩
        rw [List.length_eq_zero] at hlen
        subst hlen
        simpa using hcs
  | succ n ih =>
      intro cs rest
      cases cs with
      | nil =>
          simp only [takeHex]
          constructor
          · intro h
            exact absurd h (by simp)
          · rintro ⟨pre, hcs, hlen, -⟩
            have := congrArg List.length hcs
            simp [hlen] at this
            omega
      | cons c cs =>
          by_cases hc : isHexDigit c
          · simp only [takeHex, if_pos hc, ih]
            constructor
            · rintro ⟨pre, rfl, hlen, hall⟩
              exact ⟨c :: pre, rfl, by simp [hlen], by simp [List.all_cons, hc, hall]⟩
            · rintro ⟨pre, hcs, hlen, hall⟩
              cases pre with
              | nil => simp at hlen
              | cons p ps =>
                  simp only [List.cons_append, List.cons.injEq] at hcs
                  obtain ⟨rfl, rfl⟩ := hcs
                  refine ⟨ps, rfl, by simpa using hlen, ?_⟩
                  simp only [List.all_cons, Bool.and_eq_true] at hall
                  exact hall.2
          · simp only [takeHex, if_neg hc]
            constructor
            · intro h
              exact absurd h (by simp)
            · rintro ⟨pre, hcs, hlen, hall⟩
              cases pre with
              | nil => simp at hlen
              | cons p ps =>
                  simp only [List.cons_append, List.cons.injEq] at hcs
                  obtain ⟨rfl, -⟩ := hcs
                  simp only [List.all_cons, Bool.and_eq_true] at hall
                  exact absurd hall.1 hc

theorem takeDash_eq_some (cs rest : List Char) :
    takeDash cs = some rest ↔ cs = '-' :: rest := by
  cases cs with
  | nil => simp [takeDash]
  | cons c cs =>
      by_cases hc : c = '-'
      · subst hc; simp [takeDash]
      · simp [takeDash, hc]

/-- The shape the specification describes for a valid UUID string: eight hex
digits, dash, three dash-separated groups of four hex digits, dash, twelve hex
digits (stated over the character list of the string).  This definition
follows the words of the spec; `isValidUUID` is the embedding of the source
regex, and the two are proved equivalent below. -/
def uuidShape (s : String) : Prop :=
  ∃ a b c d e : List Char,
    s.data = a ++ '-' :: (b ++ '-' :: (c ++ '-' :: (d ++ '-' :: e))) ∧
    a.length = 8 ∧ b.length = 4 ∧ c.length = 4 ∧ d.length = 4 ∧ e.length = 12 ∧
    a.all isHexDigit ∧ b.all isHexDigit ∧ c.all isHexDigit ∧
    d.all isHexDigit ∧ e.all isHexDigit

theorem isValidUUID_iff_uuidShape (s : String) :
    isValidUUID s = true ↔ uuidShape s := by
  have hchain : isValidUUID s = true ↔
      (((((((( takeHex 8 s.data).bind takeDash).bind
        (takeHex 4)).bind takeDash).bind
        (takeHex 4)).bind takeDash).bind
        (takeHex 4)).bind takeDash).bind (takeHex 12) = some [] := by
    unfold isValidUUID
    split
    next heq => exact ⟨fun _ => heq, fun _ => rfl⟩
    next h =>
      constructor
      · intro hfalse
        exact absurd hfalse (by simp)
      · intro hcontra
        exact absurd hcontra h
  rw [hchain]
  simp only [Option.bind_eq_some, takeHex_eq_some, takeDash_eq_some]
  constructor
  · rintro ⟨r8, ⟨r7, ⟨r6, ⟨r5, ⟨r4, ⟨r3, ⟨r2, ⟨r1, ⟨a, ha, halen, haall⟩, h12⟩,
      ⟨b, hb, hblen, hball⟩⟩, h34⟩, ⟨c, hc, hclen, hcall⟩⟩, h56⟩,
      ⟨d, hd, hdlen, hdall⟩⟩, h78⟩, ⟨e, he, helen, heall⟩⟩
    subst h12 h34 h56 h78 hb hc hd he
    refine ⟨a, b, c, d, e, ?_, halen, hblen, hclen, hdlen, helen,
      haall, hball, hcall, hdall, heall⟩
    simpa using ha
  · rintro ⟨a, b, c, d, e, hdata, halen, hblen, hclen, hdlen, helen,
      haall, hball, hcall, hdall, heall⟩
    exact ⟨e, ⟨'-' :: e, ⟨d ++ '-' :: e, ⟨'-' :: (d ++ '-' :: e),
      ⟨c ++ '-' :: (d ++ '-' :: e), ⟨'-' :: (c ++ '-' :: (d ++ '-' :: e)),
      ⟨b ++ '-' :: (c ++ '-' :: (d ++ '-' :: e)),
      ⟨'-' :: (b ++ '-' :: (c ++ '-' :: (d ++ '-' :: e))),
      ⟨a, hdata, halen, haall⟩, rfl⟩, ⟨b, rfl, hblen, hball⟩⟩, rfl⟩,
      ⟨c, rfl, hclen, hcall⟩⟩, rfl⟩, ⟨d, rfl, hdlen, hdall⟩⟩, rfl⟩,
      ⟨e, by simp, helen, heall⟩⟩

/-! ### Concrete data used by the claim theorems and witnesses -/

/-- A UUID-shaped recipe id used in concrete scenarios. -/
def demoRecipeId : String := "123e4567-e89b-12d3-a456-426614174000"

/-- A UUID-shaped owner identity used in concrete scenarios. -/
def demoOwnerId : String := "aaaaaaaa-aaaa-aaaa-aaaa-aaaaaaaaaaaa"

/-- A UUID-shaped identity different from `demoOwnerId`. -/
def demoOtherId : String := "bbbbbbbb-bbbb-bbbb-bbbb-bbbbbbbbbbbb"

/-- A concrete stored recipe owned by `demoOwnerId`. -/
def demoRecipe : Recipe :=
  { id := demoRecipeId
    recipeName := "Banitsa"
    ownerName := "Maria"
    ownerId := demoOwnerId
    description := "Traditional pastry"
    recipeType := "Bulgarian"
    videoDemonstration := "https://example.com/banitsa" }

/-! ### Claim theorems -/

/--
C1 (code bug in revision A): `deleteRecipe` of revision A removes the record
before checking ownership, so a delete by a non-owner returns the
Unauthorized error ("Only the owner can delete the recipe!") yet the record
is gone from the store afterwards — the record does NOT still exist under its
id, contrary to the ownership invariant the spec states.  On the same input,
revision B's check-then-remove ordering returns the same error and leaves the
store unchanged.
-/
theorem revA_unauthorized_delete_loses_record :
    RevA.deleteRecipe [(demoRecipeId, demoRecipe)] demoRecipeId demoOtherId
      = (.error "Only the owner can delete the recipe!", []) ∧
    Store.get
      (RevA.deleteRecipe [(demoRecipeId, demoRecipe)] demoRecipeId demoOtherId).2
      demoRecipeId = none ∧
    RevB.deleteRecipe [(demoRecipeId, demoRecipe)] demoRecipeId demoOtherId
      = (.error "Only the owner can delete the recipe!",
         [(demoRecipeId, demoRecipe)]) := by
  refine ⟨by decide, by decide, by decide⟩

/--
C5: `isValidUUID` is a total Boolean-valued function; it returns `true`
exactly for strings of the shape eight hex digits, dash, three dash-separated
groups of four hex digits, dash, twelve hex digits (case-insensitively); in
particular it accepts "123e4567-e89b-12d3-a456-426614174000" and rejects
"not-a-uuid", "", and a string with a wrong hyphen grouping.
-/
theorem isValidUUID_matches_spec_shape :
    (∀ s : String, isValidUUID s = true ↔ uuidShape s) ∧
    isValidUUID "123e4567-e89b-12d3-a456-426614174000" = true ∧
    isValidUUID "not-a-uuid" = false ∧
    isValidUUID "" = false ∧
    isValidUUID "123e4567-e89b12d3-a456-426614174000" = false :=
  ⟨isValidUUID_iff_uuidShape, by decide, by decide, by decide, by decide⟩

/--
C9: `isValidUUID` checks only the 8-4-4-4-12 hex-digit shape and never the
version or variant nibbles: acceptance is equivalent to the bare shape, and
the all-zero string "00000000-0000-0000-0000-000000000000" is accepted even
though its version nibble (character 14) is '0', not '4'.
-/
theorem isValidUUID_ignores_version_nibble :
    (∀ s : String, isValidUUID s = true ↔ uuidShape s) ∧
    isValidUUID "00000000-0000-0000-0000-000000000000" = true ∧
    "00000000-0000-0000-0000-000000000000".data.getD 14 ' ' = '0' :=
  ⟨isValidUUID_iff_uuidShape, by decide, by decide⟩

/--
C7: `getAllRecipes` on an empty store returns the EmptyResult error
("There are no recipes at this moment."), not a successful empty list; on a
non-empty store it returns Ok carrying the stored values, and a record is
among the stored values exactly when it is stored under some key.
-/
theorem getAllRecipes_empty_error_or_all (store : Store) :
    RevA.getAllRecipes store =
      (if Store.values store = [] then
        .error "There are no recipes at this moment."
      else .ok (Store.values store)) ∧
    RevB.getAllRecipes store =
      (if Store.values store = [] then
        .error "There are no recipes at this moment."
      else .ok (Store.values store)) ∧
    ∀ r : Recipe, (r ∈ Store.values store ↔ ∃ k, (k, r) ∈ store) := by
  refine ⟨?_, ?_, fun r => Store.mem_values_iff store r⟩
  · by_cases h : Store.values store = [] <;>
      simp [RevA.getAllRecipes, h, List.length_eq_zero]
  · by_cases h : Store.values store = [] <;>
      simp [RevB.getAllRecipes, h, List.length_eq_zero]

/--
C6: `createRecipe` fails with IncompleteInput ("Incomplete input data!") and
leaves the store unchanged whenever any of the five payload fields is the
empty string, and with all five fields non-empty it succeeds and inserts the
new record (revision A and revision B alike); the final conjuncts show that
the inserted record is then retrievable under the fresh id.
-/
theorem createRecipe_incomplete_or_insert (store : Store)
    (payload : RecipePayload) (freshId freshOwner requesterId : String) :
    RevA.createRecipe store freshId freshOwner payload =
      (if payload.recipeName = "" ∨ payload.recipeType = "" ∨
          payload.description = "" ∨ payload.ownerName = "" ∨
          payload.videoDemonstration = "" then
        (.error "Incomplete input data!", store)
      else
        (.ok (newRecipeA freshId freshOwner payload),
         Store.insert store freshId (newRecipeA freshId freshOwner payload))) ∧
    RevB.createRecipe store requesterId freshId payload =
      (if payload.recipeName = "" ∨ payload.recipeType = "" ∨
          payload.description = "" ∨ payload.ownerName = "" ∨
          payload.videoDemonstration = "" then
        (.error "Incomplete input data!", store)
      else
        (.ok (newRecipeB freshId requesterId payload),
         Store.insert store freshId (newRecipeB freshId requesterId payload))) ∧
    Store.get (Store.insert store freshId (newRecipeA freshId freshOwner payload))
      freshId = some (newRecipeA freshId freshOwner payload) ∧
    Store.get (Store.insert store freshId (newRecipeB freshId requesterId payload))
      freshId = some (newRecipeB freshId requesterId payload) := by
  refine ⟨?_, ?_, Store.get_insert_self store freshId _,
    Store.get_insert_self store freshId _⟩
  · by_cases h : payload.recipeName = "" ∨ payload.recipeType = "" ∨
        payload.description = "" ∨ payload.ownerName = "" ∨
        payload.videoDemonstration = ""
    · rw [if_pos h]
      simp only [RevA.createRecipe, Bool.or_eq_true, decide_eq_true_eq]
      rw [if_pos (by tauto)]
    · rw [if_neg h]
      simp only [RevA.createRecipe, Bool.or_eq_true, decide_eq_true_eq]
      rw [if_neg (by tauto)]
      rfl
  · by_cases h : payload.recipeName = "" ∨ payload.recipeType = "" ∨
        payload.description = "" ∨ payload.ownerName = "" ∨
        payload.videoDemonstration = ""
    · rw [if_pos h]
      simp only [RevB.createRecipe, Bool.or_eq_true, decide_eq_true_eq]
      rw [if_pos (by tauto)]
    · rw [if_neg h]
      simp only [RevB.createRecipe, Bool.or_eq_true, decide_eq_true_eq]
      rw [if_neg (by tauto)]
      rfl

/--
C2: for a valid payload (all five fields non-empty) and a UUID-shaped fresh
id (which `uuidv4()` always produces), `createRecipe` returns Ok with the new
record, and `getRecipeById` on the resulting store at the returned record's
id (revision B: with the creating requester's id) returns Ok with a record
equal to the created one.
-/
theorem create_then_get_returns_created
    (storeA storeB : Store) (payload : RecipePayload)
    (freshId freshOwner requesterId : String)
    (hid : isValidUUID freshId = true)
    (h1 : payload.recipeName ≠ "") (h2 : payload.recipeType ≠ "")
    (h3 : payload.description ≠ "") (h4 : payload.ownerName ≠ "")
    (h5 : payload.videoDemonstration ≠ "") :
    (RevA.createRecipe storeA freshId freshOwner payload).1
        = .ok (newRecipeA freshId freshOwner payload) ∧
    RevA.getRecipeById (RevA.createRecipe storeA freshId freshOwner payload).2
        (newRecipeA freshId freshOwner payload).id
      = .ok (newRecipeA freshId freshOwner payload) ∧
    (RevB.createRecipe storeB requesterId freshId payload).1
        = .ok (newRecipeB freshId requesterId payload) ∧
    RevB.getRecipeById (RevB.createRecipe storeB requesterId freshId payload).2
        (newRecipeB freshId requesterId payload).id requesterId
      = .ok (newRecipeB freshId requesterId payload) := by
  have hcondA : RevA.createRecipe storeA freshId freshOwner payload
      = (.ok (newRecipeA freshId freshOwner payload),
         Store.insert storeA freshId (newRecipeA freshId freshOwner payload)) := by
    simp only [RevA.createRecipe, Bool.or_eq_true, decide_eq_true_eq]
    rw [if_neg (by tauto)]
    rfl
  have hcondB : RevB.createRecipe storeB requesterId freshId payload
      = (.ok (newRecipeB freshId requesterId payload),
         Store.insert storeB freshId (newRecipeB freshId requesterId payload)) := by
    simp only [RevB.createRecipe, Bool.or_eq_true, decide_eq_true_eq]
    rw [if_neg (by tauto)]
    rfl
  refine ⟨by rw [hcondA], ?_, by rw [hcondB], ?_⟩
  · rw [hcondA]
    have hidA : (newRecipeA freshId freshOwner payload).id = freshId := rfl
    simp [RevA.getRecipeById, hidA, hid, Store.get_insert_self]
  · rw [hcondB]
    have hidB : (newRecipeB freshId requesterId payload).id = freshId := rfl
    have hownB : (newRecipeB freshId requesterId payload).ownerId = requesterId := rfl
    simp [RevB.getRecipeById, hidB, hid, Store.get_insert_self, hownB]

/-- Witness for C2 at a concrete valid payload and UUID-shaped ids. -/
theorem create_then_get_returns_created_witness :
    (RevA.createRecipe [] demoRecipeId demoOwnerId
        { recipeName := "Banitsa", recipeType := "Bulgarian",
          description := "Traditional pastry", ownerName := "Maria",
          videoDemonstration := "https://example.com/banitsa" }).1
        = .ok (newRecipeA demoRecipeId demoOwnerId
          { recipeName := "Banitsa", recipeType := "Bulgarian",
            description := "Traditional pastry", ownerName := "Maria",
            videoDemonstration := "https://example.com/banitsa" }) ∧
    RevA.getRecipeById
        (RevA.createRecipe [] demoRecipeId demoOwnerId
          { recipeName := "Banitsa", recipeType := "Bulgarian",
            description := "Traditional pastry", ownerName := "Maria",
            videoDemonstration := "https://example.com/banitsa" }).2
        (newRecipeA demoRecipeId demoOwnerId
          { recipeName := "Banitsa", recipeType := "Bulgarian",
            description := "Traditional pastry", ownerName := "Maria",
            videoDemonstration := "https://example.com/banitsa" }).id
      = .ok (newRecipeA demoRecipeId demoOwnerId
          { recipeName := "Banitsa", recipeType := "Bulgarian",
            description := "Traditional pastry", ownerName := "Maria",
            videoDemonstration := "https://example.com/banitsa" }) ∧
    (RevB.createRecipe [] demoOwnerId demoRecipeId
        { recipeName := "Banitsa", recipeType := "Bulgarian",
          description := "Traditional pastry", ownerName := "Maria",
          videoDemonstration := "https://example.com/banitsa" }).1
        = .ok (newRecipeB demoRecipeId demoOwnerId
          { recipeName := "Banitsa", recipeType := "Bulgarian",
            description := "Traditional pastry", ownerName := "Maria",
            videoDemonstration := "https://example.com/banitsa" }) ∧
    RevB.getRecipeById
        (RevB.createRecipe [] demoOwnerId demoRecipeId
          { recipeName := "Banitsa", recipeType := "Bulgarian",
            description := "Traditional pastry", ownerName := "Maria",
            videoDemonstration := "https://example.com/banitsa" }).2
        (newRecipeB demoRecipeId demoOwnerId
          { recipeName := "Banitsa", recipeType := "Bulgarian",
            description := "Traditional pastry", ownerName := "Maria",
            videoDemonstration := "https://example.com/banitsa" }).id demoOwnerId
      = .ok (newRecipeB demoRecipeId demoOwnerId
          { recipeName := "Banitsa", recipeType := "Bulgarian",
            description := "Traditional pastry", ownerName := "Maria",
            videoDemonstration := "https://example.com/banitsa" }) :=
  create_then_get_returns_created [] []
    { recipeName := "Banitsa", recipeType := "Bulgarian",
      description := "Traditional pastry", ownerName := "Maria",
      videoDemonstration := "https://example.com/banitsa" }
    demoRecipeId demoOwnerId demoOwnerId
    (by decide) (by decide) (by decide) (by decide) (by decide) (by decide)

/-- Idempotence of revision B's `updateRecipe`, as a pair equality. -/
theorem updateRecipeB_idem_aux (store : Store) (recipeId identity : String)
    (payload : RecipePayload) :
    RevB.updateRecipe (RevB.updateRecipe store recipeId identity payload).2
        recipeId identity payload
      = RevB.updateRecipe store recipeId identity payload := by
  by_cases hv : (!isValidUUID recipeId) = true
  · simp [RevB.updateRecipe, hv]
  · cases hget : Store.get store recipeId with
    | none => simp [RevB.updateRecipe, hv, hget]
    | some recipe =>
        by_cases hown : recipe.ownerId = identity
        · have h1 : RevB.updateRecipe store recipeId identity payload
              = (.ok (applyPayload payload recipe),
                 Store.insert store recipe.id (applyPayload payload recipe)) := by
            simp [RevB.updateRecipe, hv, hget, hown]
          rw [h1]
          by_cases hk : recipe.id = recipeId
          · subst hk
            simp [RevB.updateRecipe, hv, Store.get_insert_self,
              applyPayload_ownerId, hown, applyPayload_idem, applyPayload_id,
              Store.insert_insert_self]
          · simp [RevB.updateRecipe, hv,
              Store.get_insert_ne store recipe.id recipeId _ hk, hget, hown,
              applyPayload_ownerId, applyPayload_idem, applyPayload_id,
              Store.insert_insert_self]
        · simp [RevB.updateRecipe, hv, hget, hown]

/-- Idempotence of revision A's `updateRecipe`, as a pair equality. -/
theorem updateRecipeA_idem_aux (store : Store) (recipeId ownerId : String)
    (payload : RecipePayload) :
    RevA.updateRecipe (RevA.updateRecipe store recipeId ownerId payload).2
        recipeId ownerId payload
      = RevA.updateRecipe store recipeId ownerId payload := by
  by_cases hv : (!isValidUUID recipeId || !isValidUUID ownerId) = true
  · simp [RevA.updateRecipe, hv]
  · cases hget : Store.get store recipeId with
    | none => simp [RevA.updateRecipe, hv, hget]
    | some recipe =>
        by_cases hown : recipe.ownerId = ownerId
        · have h1 : RevA.updateRecipe store recipeId ownerId payload
              = (.ok (applyPayload payload recipe),
                 Store.insert store recipe.id (applyPayload payload recipe)) := by
            simp [RevA.updateRecipe, hv, hget, hown]
          rw [h1]
          by_cases hk : recipe.id = recipeId
          · subst hk
            simp [RevA.updateRecipe, hv, Store.get_insert_self,
              applyPayload_ownerId, hown, applyPayload_idem, applyPayload_id,
              Store.insert_insert_self]
          · simp [RevA.updateRecipe, hv,
              Store.get_insert_ne store recipe.id recipeId _ hk, hget, hown,
              applyPayload_ownerId, applyPayload_idem, applyPayload_id,
              Store.insert_insert_self]
        · simp [RevA.updateRecipe, hv, hget, hown]

/--
C3: `updateRecipe` is idempotent in both revisions: calling it a second time
with the same id, identity and payload, starting from the store produced by
the first call, returns the same (result, store) pair as the first call — the
stored state and the returned record are those of a single application.  This
holds for every starting store, id, identity and payload (in the error cases
the store is unchanged and both calls return the same error).
-/
theorem updateRecipe_idempotent (store : Store) (recipeId identity : String)
    (payload : RecipePayload) :
    RevA.updateRecipe (RevA.updateRecipe store recipeId identity payload).2
        recipeId identity payload
      = RevA.updateRecipe store recipeId identity payload ∧
    RevB.updateRecipe (RevB.updateRecipe store recipeId identity payload).2
        recipeId identity payload
      = RevB.updateRecipe store recipeId identity payload :=
  ⟨updateRecipeA_idem_aux store recipeId identity payload,
   updateRecipeB_idem_aux store recipeId identity payload⟩

/--
C4: with a stored recipe, valid ids and the correct owner identity,
`updateRecipe` succeeds in both revisions, stores the updated record under
the stored record's own key and returns it; the updated record keeps `id`
and `ownerId` unchanged, takes each non-empty payload field, and keeps the
previous stored value for each empty payload field.
-/
theorem updateRecipe_success_frame (store : Store) (recipeId identity : String)
    (payload : RecipePayload) (recipe : Recipe)
    (hvr : isValidUUID recipeId = true) (hvo : isValidUUID identity = true)
    (hget : Store.get store recipeId = some recipe)
    (hown : recipe.ownerId = identity) :
    RevA.updateRecipe store recipeId identity payload
      = (.ok (applyPayload payload recipe),
         Store.insert store recipe.id (applyPayload payload recipe)) ∧
    RevB.updateRecipe store recipeId identity payload
      = (.ok (applyPayload payload recipe),
         Store.insert store recipe.id (applyPayload payload recipe)) ∧
    (applyPayload payload recipe).id = recipe.id ∧
    (applyPayload payload recipe).ownerId = recipe.ownerId ∧
    (applyPayload payload recipe).recipeName
      = (if payload.recipeName = "" then recipe.recipeName
         else payload.recipeName) ∧
    (applyPayload payload recipe).recipeType
      = (if payload.recipeType = "" then recipe.recipeType
         else payload.recipeType) ∧
    (applyPayload payload recipe).description
      = (if payload.description = "" then recipe.description
         else payload.description) ∧
    (applyPayload payload recipe).ownerName
      = (if payload.ownerName = "" then recipe.ownerName
         else payload.ownerName) ∧
    (applyPayload payload recipe).videoDemonstration
      = (if payload.videoDemonstration = "" then recipe.videoDemonstration
         else payload.videoDemonstration) := by
  refine ⟨?_, ?_, rfl, rfl, rfl, rfl, rfl, rfl, rfl⟩
  · simp [RevA.updateRecipe, hvr, hvo, hget, hown]
  · simp [RevB.updateRecipe, hvr, hget, hown]

/-- Witness for C4: a concrete successful update overwriting only the name. -/
theorem updateRecipe_success_frame_witness :
    RevA.updateRecipe [(demoRecipeId, demoRecipe)] demoRecipeId demoOwnerId
        { recipeName := "Mekitsa", recipeType := "", description := "",
          ownerName := "", videoDemonstration := "" }
      = (.ok (applyPayload
            { recipeName := "Mekitsa", recipeType := "", description := "",
              ownerName := "", videoDemonstration := "" } demoRecipe),
         Store.insert [(demoRecipeId, demoRecipe)] demoRecipe.id
           (applyPayload
             { recipeName := "Mekitsa", recipeType := "", description := "",
               ownerName := "", videoDemonstration := "" } demoRecipe)) ∧
    RevB.updateRecipe [(demoRecipeId, demoRecipe)] demoRecipeId demoOwnerId
        { recipeName := "Mekitsa", recipeType := "", description := "",
          ownerName := "", videoDemonstration := "" }
      = (.ok (applyPayload
            { recipeName := "Mekitsa", recipeType := "", description := "",
              ownerName := "", videoDemonstration := "" } demoRecipe),
         Store.insert [(demoRecipeId, demoRecipe)] demoRecipe.id
           (applyPayload
             { recipeName := "Mekitsa", recipeType := "", description := "",
               ownerName := "", videoDemonstration := "" } demoRecipe)) ∧
    (applyPayload
        { recipeName := "Mekitsa", recipeType := "", description := "",
          ownerName := "", videoDemonstration := "" } demoRecipe).id
      = demoRecipe.id ∧
    (applyPayload
        { recipeName := "Mekitsa", recipeType := "", description := "",
          ownerName := "", videoDemonstration := "" } demoRecipe).ownerId
      = demoRecipe.ownerId ∧
    (applyPayload
        { recipeName := "Mekitsa", recipeType := "", description := "",
          ownerName := "", videoDemonstration := "" } demoRecipe).recipeName
      = (if ("Mekitsa" : String) = "" then demoRecipe.recipeName
         else "Mekitsa") ∧
    (applyPayload
        { recipeName := "Mekitsa", recipeType := "", description := "",
          ownerName := "", videoDemonstration := "" } demoRecipe).recipeType
      = (if ("" : String) = "" then demoRecipe.recipeType else "") ∧
    (applyPayload
        { recipeName := "Mekitsa", recipeType := "", description := "",
          ownerName := "", videoDemonstration := "" } demoRecipe).description
      = (if ("" : String) = "" then demoRecipe.description else "") ∧
    (applyPayload
        { recipeName := "Mekitsa", recipeType := "", description := "",
          ownerName := "", videoDemonstration := "" } demoRecipe).ownerName
      = (if ("" : String) = "" then demoRecipe.ownerName else "") ∧
    (applyPayload
        { recipeName := "Mekitsa", recipeType := "", description := "",
          ownerName := "", videoDemonstration := "" } demoRecipe).videoDemonstration
      = (if ("" : String) = "" then demoRecipe.videoDemonstration else "") :=
  updateRecipe_success_frame [(demoRecipeId, demoRecipe)] demoRecipeId
    demoOwnerId
    { recipeName := "Mekitsa", recipeType := "", description := "",
      ownerName := "", videoDemonstration := "" }
    demoRecipe (by decide) (by decide) (by decide) (by decide)

/--
C10: `updateRecipe` performs no completeness check on the payload: with the
owner's identity, valid ids and a stored recipe kept under its own id, a
payload whose five fields are all empty strings succeeds (no IncompleteInput
error) and leaves the store exactly unchanged, returning the stored record.
-/
theorem updateRecipe_all_empty_noop (store : Store)
    (recipeId identity : String) (recipe : Recipe)
    (hvr : isValidUUID recipeId = true) (hvo : isValidUUID identity = true)
    (hget : Store.get store recipeId = some recipe)
    (hkey : recipe.id = recipeId)
    (hown : recipe.ownerId = identity) :
    RevA.updateRecipe store recipeId identity
        { recipeName := "", recipeType := "", description := "",
          ownerName := "", videoDemonstration := "" }
      = (.ok recipe, store) ∧
    RevB.updateRecipe store recipeId identity
        { recipeName := "", recipeType := "", description := "",
          ownerName := "", videoDemonstration := "" }
      = (.ok recipe, store) := by
  have hstore : Store.insert store recipe.id recipe = store := by
    rw [hkey]
    exact Store.insert_get_self store recipeId recipe hget
  constructor
  · simp [RevA.updateRecipe, hvr, hvo, hget, hown, applyPayload_empty, hstore]
  · simp [RevB.updateRecipe, hvr, hget, hown, applyPayload_empty, hstore]

/-- Witness for C10: the all-empty payload at a concrete stored recipe. -/
theorem updateRecipe_all_empty_noop_witness :
    RevA.updateRecipe [(demoRecipeId, demoRecipe)] demoRecipeId demoOwnerId
        { recipeName := "", recipeType := "", description := "",
          ownerName := "", videoDemonstration := "" }
      = (.ok demoRecipe, [(demoRecipeId, demoRecipe)]) ∧
    RevB.updateRecipe [(demoRecipeId, demoRecipe)] demoRecipeId demoOwnerId
        { recipeName := "", recipeType := "", description := "",
          ownerName := "", videoDemonstration := "" }
      = (.ok demoRecipe, [(demoRecipeId, demoRecipe)]) :=
  updateRecipe_all_empty_noop [(demoRecipeId, demoRecipe)] demoRecipeId
    demoOwnerId demoRecipe (by decide) (by decide) (by decide) (by decide)
    (by decide)

/--
C8: `getRecipeByName` and `getRecipesByType` match case-insensitively over a
full scan.  The runtime's Unicode `toLowerCase` enters as the function
parameter `lower`, and the characterization holds for every such function,
in particular for the actual Unicode mapping: each query returns Ok with
exactly the stored records whose lowercased name (resp. type) equals the
lowercased query, and fails with the EmptyResult error when no record
matches; a stored record whose name (resp. type) equals the query up to
letter case (that is, after `lower`) is in the returned list.  The closing
conjuncts instantiate the ASCII fragment: the stored recipe with name
"Banitsa" and type "Bulgarian" is returned for the queries "BANITSA" and
"bulgarian".
-/
theorem name_type_queries_case_insensitive (lower : String → String)
    (store : Store) (query : String) (r : Recipe) :
    RevA.getRecipeByName lower store query =
      (if (Store.values store).filter
          (fun recipe => lower recipe.recipeName = lower query) = []
       then .error "There are no recipes with such a name at this moment."
       else .ok ((Store.values store).filter
          (fun recipe => lower recipe.recipeName = lower query))) ∧
    RevB.getRecipeByName lower store query =
      (if (Store.values store).filter
          (fun recipe => lower recipe.recipeName = lower query) = []
       then .error ("There are no recipes with the name " ++ query ++
              " at this moment.")
       else .ok ((Store.values store).filter
          (fun recipe => lower recipe.recipeName = lower query))) ∧
    RevA.getRecipesByType lower store query =
      (if (Store.values store).filter
          (fun recipe => lower recipe.recipeType = lower query) = []
       then .error "There are no recipes available from this type."
       else .ok ((Store.values store).filter
          (fun recipe => lower recipe.recipeType = lower query))) ∧
    RevB.getRecipesByType lower store query =
      (if (Store.values store).filter
          (fun recipe => lower recipe.recipeType = lower query) = []
       then .error ("There are no recipes available from type " ++ query ++ ".")
       else .ok ((Store.values store).filter
          (fun recipe => lower recipe.recipeType = lower query))) ∧
    (r ∈ (Store.values store).filter
        (fun recipe => lower recipe.recipeName = lower query)
      ↔ r ∈ Store.values store ∧ lower r.recipeName = lower query) ∧
    (r ∈ (Store.values store).filter
        (fun recipe => lower recipe.recipeType = lower query)
      ↔ r ∈ Store.values store ∧ lower r.recipeType = lower query) ∧
    RevA.getRecipeByName asciiToLower [(demoRecipeId, demoRecipe)] "BANITSA"
      = .ok [demoRecipe] ∧
    RevB.getRecipeByName asciiToLower [(demoRecipeId, demoRecipe)] "BANITSA"
      = .ok [demoRecipe] ∧
    RevA.getRecipesByType asciiToLower [(demoRecipeId, demoRecipe)] "bulgarian"
      = .ok [demoRecipe] ∧
    RevB.getRecipesByType asciiToLower [(demoRecipeId, demoRecipe)] "bulgarian"
      = .ok [demoRecipe] := by
  refine ⟨?_, ?_, ?_, ?_, ?_, ?_, by decide, by decide, by decide, by decide⟩
  · by_cases h : (Store.values store).filter
        (fun recipe => lower recipe.recipeName = lower query) = [] <;>
      simp [RevA.getRecipeByName, h, List.length_eq_zero]
  · by_cases h : (Store.values store).filter
        (fun recipe => lower recipe.recipeName = lower query) = [] <;>
      simp [RevB.getRecipeByName, h, List.length_eq_zero]
  · by_cases h : (Store.values store).filter
        (fun recipe => lower recipe.recipeType = lower query) = [] <;>
      simp [RevA.getRecipesByType, h, List.length_eq_zero]
  · by_cases h : (Store.values store).filter
        (fun recipe => lower recipe.recipeType = lower query) = [] <;>
      simp [RevB.getRecipesByType, h, List.length_eq_zero]
  · simp [List.mem_filter]
  · simp [List.mem_filter]
